import Mathlib

/-!
Shallow embedding of the Minix filesystem driver core
(src/fs/minix/inode.c of the repository) together with theorems about its
superblock parser, mount validation, inode I/O, remount, eviction, statfs
and module-init paths.
-/

set_option linter.unusedVariables false

namespace Minix

/-! ### On-disk constants

Numeric constants from the Minix on-disk format.  The header `minix.h` /
`linux/minix_fs.h` is not part of src/, so the constant values are taken
from the spec (§4.1, §6): the five magic numbers, the mount-state bits,
and the 1024-byte base block size. -/

def BLOCK_SIZE : Nat := 1024

def MINIX_SUPER_MAGIC : Nat := 0x137F

def MINIX_SUPER_MAGIC2 : Nat := 0x138F

def MINIX2_SUPER_MAGIC : Nat := 0x2468

def MINIX2_SUPER_MAGIC2 : Nat := 0x2478

def MINIX3_SUPER_MAGIC : Nat := 0x4D5A

def MINIX_VALID_FS : Nat := 0x0001

def MINIX_ERROR_FS : Nat := 0x0002

def MINIX_LINK_MAX : Nat := 250

def MINIX2_LINK_MAX : Nat := 65530

def MINIX_ROOT_INO : Nat := 1

/-- The three on-disk format versions (`s_version` of `minix_sb_info`). -/
inductive Version
  | V1
  | V2
  | V3
  deriving Repr, DecidableEq

/-! ### Device block 1: the two superblock overlays -/

/-- The `struct minix_super_block` view of device block 1.  Field comments
give the on-disk width (spec §6; `minix.h` is not under src/).  All fields
are modelled as `Nat` holding the little-endian field value. -/
structure MinixSuperBlockRaw where
  s_ninodes : Nat        -- __u16
  s_nzones : Nat         -- __u16
  s_imap_blocks : Nat    -- __u16
  s_zmap_blocks : Nat    -- __u16
  s_firstdatazone : Nat  -- __u16
  s_log_zone_size : Nat  -- __u16
  s_max_size : Nat       -- __u32
  s_magic : Nat          -- __u16, at byte offset 16
  s_state : Nat          -- __u16
  s_zones : Nat          -- __u32
  deriving Repr, DecidableEq

/-- The `struct minix3_super_block` view of the same device block 1.
Its `s_magic` field sits at byte offset 24 of the block (spec §6), which is
exactly the 16-bit word probed by line 244 of inode.c. -/
structure Minix3SuperBlockRaw where
  s_ninodes : Nat        -- __u32
  s_imap_blocks : Nat    -- __u16
  s_zmap_blocks : Nat    -- __u16
  s_firstdatazone : Nat  -- __u16
  s_log_zone_size : Nat  -- __u16
  s_max_size : Nat       -- __u32
  s_zones : Nat          -- __u32
  s_magic : Nat          -- __u16, at byte offset 24
  s_blocksize : Nat      -- __u16
  deriving Repr, DecidableEq

/-- Device block 1 as `minix_fill_super` views it: the same bytes through
both struct overlays (`ms` at line 210, `m3s` at line 245). -/
structure SuperBlock1 where
  ms : MinixSuperBlockRaw
  m3s : Minix3SuperBlockRaw
  deriving Repr, DecidableEq

/-- An in-memory bitmap block (`b_data` of one buffer head), as a bit
vector indexed by bit number. -/
def BitmapBlock := Nat → Bool

/-- The block device and the collaborators of `minix_fill_super`:
`setOk size` is whether `sb_set_blocksize(s, size)` succeeds;
`super` is the result of `sb_bread(s, 1)` (performed while the block size
is 1024), `none` meaning the read failed;
`bread bs n` is the result of `sb_bread(s, n)` when the volume block size
is `bs`;
`rootOk` is whether `minix_iget(s, MINIX_ROOT_INO)` and `d_make_root`
both succeed. -/
structure Device where
  setOk : Nat → Bool
  super : Option SuperBlock1
  bread : Nat → Nat → Option BitmapBlock
  rootOk : Bool

/-- The failure exits of `minix_fill_super`, one constructor per goto
label of inode.c (the spec's error kinds in parentheses):
`badHblock` = out_bad_hblock (BadBlockSize), `badSb` = out_bad_sb
(ReadError), `noFs` = out_no_fs (NoFilesystem), `illegalSb` =
out_illegal_sb (IllegalSuperblock), `noBitmap` = out_no_bitmap
(BadBitmap), `noRoot` = out_no_root (RootMissing).  The two ENOMEM exits
(kzalloc at lines 189 and 270) are not modelled: allocation is taken to
succeed. -/
inductive FillError
  | badHblock
  | badSb
  | noFs
  | illegalSb
  | noBitmap
  | noRoot
  deriving Repr, DecidableEq

/-- The parsed geometry fields of `struct minix_sb_info` filled in by
`minix_fill_super` lines 213-257. -/
structure SbInfo where
  s_ninodes : Nat
  s_nzones : Nat
  s_imap_blocks : Nat
  s_zmap_blocks : Nat
  s_firstdatazone : Nat
  s_log_zone_size : Nat
  s_max_size : Nat
  s_mount_state : Nat
  s_version : Version
  s_dirsize : Nat
  s_namelen : Nat
  deriving Repr, DecidableEq

/-- The outcome of the magic dispatch (lines 221-261): the `minix_sb_info`
geometry plus the VFS-level `s_magic`, `s_max_links` and the volume block
size in force after the branch. -/
structure ParsedSuper where
  sbi : SbInfo
  s_magic : Nat
  s_max_links : Nat
  s_blocksize : Nat
  deriving Repr, DecidableEq

/-- The `minix_sb_info` candidate built from the `minix_super_block`
overlay before the magic dispatch (lines 213-220).  `s_version`,
`s_dirsize`, `s_namelen` are the zero values of the kzalloc-ed struct. -/
def sbiFromMs (ms : MinixSuperBlockRaw) : SbInfo :=
  { s_ninodes := ms.s_ninodes
    s_nzones := ms.s_nzones
    s_imap_blocks := ms.s_imap_blocks
    s_zmap_blocks := ms.s_zmap_blocks
    s_firstdatazone := ms.s_firstdatazone
    s_log_zone_size := ms.s_log_zone_size
    s_max_size := ms.s_max_size
    s_mount_state := ms.s_state
    s_version := Version.V1
    s_dirsize := 0
    s_namelen := 0 }

/-- The magic dispatch of `minix_fill_super`, lines 221-261: the five
acceptance branches tried in source order, `none` for the out_no_fs exit.
In the fifth branch (line 244) the probe reads the 16-bit word at byte
offset 24, i.e. the `s_magic` field of the `minix3_super_block` overlay.
Line 258 calls `sb_set_blocksize(s, m3s->s_blocksize)` and ignores its
return value: when it fails the block size stays 1024. -/
def minix_parse_magic (dev : Device) (b : SuperBlock1) : Option ParsedSuper :=
  let ms := b.ms
  let sbi0 := sbiFromMs ms
  if ms.s_magic = MINIX_SUPER_MAGIC then
    some { sbi := { sbi0 with s_version := Version.V1, s_dirsize := 16, s_namelen := 14 }
           s_magic := ms.s_magic, s_max_links := MINIX_LINK_MAX, s_blocksize := BLOCK_SIZE }
  else if ms.s_magic = MINIX_SUPER_MAGIC2 then
    some { sbi := { sbi0 with s_version := Version.V1, s_dirsize := 32, s_namelen := 30 }
           s_magic := ms.s_magic, s_max_links := MINIX_LINK_MAX, s_blocksize := BLOCK_SIZE }
  else if ms.s_magic = MINIX2_SUPER_MAGIC then
    some { sbi := { sbi0 with s_version := Version.V2, s_nzones := ms.s_zones,
                              s_dirsize := 16, s_namelen := 14 }
           s_magic := ms.s_magic, s_max_links := MINIX2_LINK_MAX, s_blocksize := BLOCK_SIZE }
  else if ms.s_magic = MINIX2_SUPER_MAGIC2 then
    some { sbi := { sbi0 with s_version := Version.V2, s_nzones := ms.s_zones,
                              s_dirsize := 32, s_namelen := 30 }
           s_magic := ms.s_magic, s_max_links := MINIX2_LINK_MAX, s_blocksize := BLOCK_SIZE }
  else if b.m3s.s_magic = MINIX3_SUPER_MAGIC then
    some { sbi := { s_ninodes := b.m3s.s_ninodes
                    s_nzones := b.m3s.s_zones
                    s_imap_blocks := b.m3s.s_imap_blocks
                    s_zmap_blocks := b.m3s.s_zmap_blocks
                    s_firstdatazone := b.m3s.s_firstdatazone
                    s_log_zone_size := b.m3s.s_log_zone_size
                    s_max_size := b.m3s.s_max_size
                    s_mount_state := MINIX_VALID_FS
                    s_version := Version.V3
                    s_dirsize := 64
                    s_namelen := 60 }
           s_magic := b.m3s.s_magic
           s_max_links := MINIX2_LINK_MAX
           s_blocksize := if dev.setOk b.m3s.s_blocksize then b.m3s.s_blocksize
                          else BLOCK_SIZE }
  else
    none

/-- Modelled from the spec: `minix_blocks_needed(bits, blocksize)` is
declared in `minix.h`, which is not under src/; per spec §4.1 it is
`ceil(bits / bits_per_block)` with `bits_per_block = 8 * blocksize`. -/
def minix_blocks_needed (bits blocksize : Nat) : Nat :=
  (bits + 8 * blocksize - 1) / (8 * blocksize)

/-- The expression `sbi->s_nzones - sbi->s_firstdatazone + 1` at line 308,
computed in the C type `unsigned long` (64-bit, wrapping). -/
def zmapBits (nzones firstdatazone : Nat) : Nat :=
  (nzones + 2 ^ 64 - firstdatazone + 1) % 2 ^ 64

/-- `ms->s_state &= ~MINIX_VALID_FS` on the 16-bit on-disk state field. -/
def clearValidBit (st : Nat) : Nat := st &&& 0xFFFE

/-- The two bitmap-reading loops of lines 276-286: read `count` consecutive
device blocks starting at `block` at block size `bs`; any failed read
aborts the whole loop (the out_no_bitmap exit). -/
def readMapBlocks (dev : Device) (bs block count : Nat) : Option (List BitmapBlock) :=
  match count with
  | 0 => some []
  | n + 1 =>
    match dev.bread bs block with
    | none => none
    | some b =>
      match readMapBlocks dev bs (block + 1) n with
      | none => none
      | some rest => some (b :: rest)

/-- `minix_set_bit(n, data)` on an in-memory bitmap block. -/
def setBit (n : Nat) (b : BitmapBlock) : BitmapBlock :=
  fun i => if i = n then true else b i

/-- Lines 288-289 apply `minix_set_bit(0, ...)` to the first block of a
bitmap set. -/
def setBit0Head : List BitmapBlock → List BitmapBlock
  | [] => []
  | b :: rest => setBit 0 b :: rest

/-- Bit 0 of the first block of a bitmap set (`false` when the set is
empty). -/
def bit0OfHead : List BitmapBlock → Bool
  | [] => false
  | b :: _ => b 0

/-- The in-memory result of a successful mount: the `minix_sb_info`
geometry, the VFS superblock fields set by the mount, the pinned bitmap
sets, and the state the mount left in the pinned superblock buffer
(`msState` = the on-disk `s_state` field, `sbDirty` = whether the buffer
was marked dirty at line 335). -/
structure Volume where
  sbi : SbInfo
  s_magic : Nat
  s_max_links : Nat
  s_blocksize : Nat
  imap : List BitmapBlock
  zmap : List BitmapBlock
  msState : Nat
  sbDirty : Bool

/-- The phase of `minix_fill_super` after the magic dispatch succeeded
(lines 267-344): bitmap-count validation, bitmap loading, bit-0
reservation, sizing checks, root inode, and the writable-mount state
update. -/
def minix_fill_super_tail (dev : Device) (rdonly : Bool) (b : SuperBlock1)
    (p : ParsedSuper) : Except FillError Volume :=
  if p.sbi.s_imap_blocks = 0 ∨ p.sbi.s_zmap_blocks = 0 then
    Except.error FillError.illegalSb
  else
    match readMapBlocks dev p.s_blocksize 2 p.sbi.s_imap_blocks with
    | none => Except.error FillError.noBitmap
    | some imapRaw =>
      match readMapBlocks dev p.s_blocksize (2 + p.sbi.s_imap_blocks) p.sbi.s_zmap_blocks with
      | none => Except.error FillError.noBitmap
      | some zmapRaw =>
        if p.sbi.s_imap_blocks < minix_blocks_needed p.sbi.s_ninodes p.s_blocksize then
          Except.error FillError.noBitmap
        else if p.sbi.s_zmap_blocks <
            minix_blocks_needed (zmapBits p.sbi.s_nzones p.sbi.s_firstdatazone) p.s_blocksize then
          Except.error FillError.noBitmap
        else if dev.rootOk then
          Except.ok
            { sbi := p.sbi
              s_magic := p.s_magic
              s_max_links := p.s_max_links
              s_blocksize := p.s_blocksize
              imap := setBit0Head imapRaw
              zmap := setBit0Head zmapRaw
              msState := if rdonly = false ∧ p.sbi.s_version ≠ Version.V3 then
                           clearValidBit b.ms.s_state
                         else b.ms.s_state
              sbDirty := rdonly = false }
        else
          Except.error FillError.noRoot

/-- Shallow embedding of `minix_fill_super` (inode.c lines 176-390).
`rdonly` is `sb_rdonly(s)`.  Memory allocation (`kzalloc`, lines 189 and
270) is modelled as always succeeding, so the two ENOMEM exits do not
appear.  The resource releases on the unwind paths are not modelled (no
claim is about them); the value computed on every path is the one the C
function returns. -/
def minix_fill_super (dev : Device) (rdonly : Bool) : Except FillError Volume :=
  if dev.setOk BLOCK_SIZE then
    match dev.super with
    | none => Except.error FillError.badSb
    | some b =>
      match minix_parse_magic dev b with
      | none => Except.error FillError.noFs
      | some p => minix_fill_super_tail dev rdonly b p
  else
    Except.error FillError.badHblock

/-! ### Inodes -/

/-- File-type constants of `inode->i_mode` (kernel `stat.h`, external to
the repository): the standard POSIX mode format bits. -/
def S_IFMT : Nat := 0o170000

def S_IFSOCK : Nat := 0o140000

def S_IFLNK : Nat := 0o120000

def S_IFREG : Nat := 0o100000

def S_IFBLK : Nat := 0o060000

def S_IFDIR : Nat := 0o040000

def S_IFCHR : Nat := 0o020000

def S_IFIFO : Nat := 0o010000

def S_ISREG (m : Nat) : Bool := m &&& S_IFMT == S_IFREG

def S_ISDIR (m : Nat) : Bool := m &&& S_IFMT == S_IFDIR

def S_ISLNK (m : Nat) : Bool := m &&& S_IFMT == S_IFLNK

def S_ISCHR (m : Nat) : Bool := m &&& S_IFMT == S_IFCHR

def S_ISBLK (m : Nat) : Bool := m &&& S_IFMT == S_IFBLK

/-- Kernel helper `old_decode_dev` (external to the repository): decode a
16-bit on-disk device word into `MKDEV((val >> 8) & 255, val & 255)` with
`MKDEV(ma, mi) = (ma << 20) | mi`. -/
def old_decode_dev (val : Nat) : Nat :=
  (((val >>> 8) &&& 255) <<< 20) ||| (val &&& 255)

/-- Kernel helper `old_encode_dev` (external to the repository):
`(MAJOR(dev) << 8) | MINOR(dev)` with `MAJOR(dev) = dev >> 20` and
`MINOR(dev) = dev & 0xFFFFF`. -/
def old_encode_dev (dev : Nat) : Nat :=
  ((dev >>> 20) <<< 8) ||| (dev &&& 0xFFFFF)

/-- Kernel helper `fs_high2lowuid` (external to the repository): squash a
32-bit uid into the 16-bit on-disk field, substituting the overflow uid
65534 when it does not fit. -/
def fs_high2lowuid (uid : Nat) : Nat :=
  if uid < 2 ^ 16 then uid else 65534

/-- Kernel helper `fs_high2lowgid`, same squashing for gids. -/
def fs_high2lowgid (gid : Nat) : Nat :=
  if gid < 2 ^ 16 then gid else 65534

/-- `struct minix_inode` — the V1 on-disk record (32 bytes).  Field widths
in comments; `i_zone` is the 9-entry 16-bit zone array. -/
structure MinixInodeRaw where
  i_mode : Nat    -- __u16
  i_uid : Nat     -- __u16
  i_size : Nat    -- __u32
  i_time : Nat    -- __u32
  i_gid : Nat     -- __u8
  i_nlinks : Nat  -- __u8
  i_zone : Fin 9 → Nat  -- __u16 i_zone[9]

/-- `struct minix2_inode` — the V2/V3 on-disk record (64 bytes) with the
10-entry 32-bit zone array and three distinct timestamps. -/
structure Minix2InodeRaw where
  i_mode : Nat    -- __u16
  i_nlinks : Nat  -- __u16
  i_uid : Nat     -- __u16
  i_gid : Nat     -- __u16
  i_size : Nat    -- __u32
  i_atime : Nat   -- __u32
  i_mtime : Nat   -- __u32
  i_ctime : Nat   -- __u32
  i_zone : Fin 10 → Nat  -- __u32 i_zone[10]

/-- A kernel timespec as the inode timestamps store it. -/
structure Timespec where
  tv_sec : Nat
  tv_nsec : Nat
  deriving Repr, DecidableEq

/-- The operation set installed by `minix_set_inode` (lines 490-506). -/
inductive InodeOps
  | file
  | dir
  | symlink
  | special
  deriving Repr, DecidableEq

/-- The VFS-level in-memory inode fields that inode.c reads or writes. -/
structure Inode where
  i_ino : Nat
  i_mode : Nat
  i_uid : Nat
  i_gid : Nat
  i_nlink : Nat
  i_size : Nat
  i_mtime : Timespec
  i_atime : Timespec
  i_ctime : Timespec
  i_blocks : Nat
  i_rdev : Nat
  ops : Option InodeOps

/-- The `u` union of `struct minix_inode_info`: the in-memory zone array,
9 16-bit words for V1 (`i1_data`) or 10 32-bit words for V2/V3
(`i2_data`). -/
inductive ZoneData
  | v1 (data : Fin 9 → Nat)
  | v2 (data : Fin 10 → Nat)

/-- Read the union as `u.i1_data`.  A volume only ever accesses the union
at its own version, so the cross-version overlay is left at zero. -/
def ZoneData.i1_data : ZoneData → Fin 9 → Nat
  | ZoneData.v1 d => d
  | ZoneData.v2 _ => fun _ => 0

/-- Read the union as `u.i2_data`. -/
def ZoneData.i2_data : ZoneData → Fin 10 → Nat
  | ZoneData.v2 d => d
  | ZoneData.v1 _ => fun _ => 0

/-- `struct minix_inode_info`: the zone-array union plus the embedded VFS
inode. -/
structure MinixInodeInfo where
  u : ZoneData
  vfs_inode : Inode

/-- The error type of the inode-population and write-back paths; `eio`
is -EIO. -/
inductive InodeErr
  | eio
  deriving Repr, DecidableEq

/-- `minix_set_inode` (inode.c lines 490-506): install the operation set
according to the file type; special files get `init_special_inode`, which
records the device number `rdev`. -/
def minix_set_inode (inode : Inode) (rdev : Nat) : Inode :=
  if S_ISREG inode.i_mode then { inode with ops := some InodeOps.file }
  else if S_ISDIR inode.i_mode then { inode with ops := some InodeOps.dir }
  else if S_ISLNK inode.i_mode then { inode with ops := some InodeOps.symlink }
  else { inode with ops := some InodeOps.special, i_rdev := rdev }

/-- `V1_minix_iget` (inode.c lines 512-543): populate a freshly allocated
in-memory inode from the V1 raw record.  `raw` is the result of
`minix_V1_raw_inode` (itree_v1.c, not under src/), `none` meaning the
read failed, in which case the function fails with -EIO. -/
def V1_minix_iget (inode : Inode) (raw : Option MinixInodeRaw) :
    Except InodeErr MinixInodeInfo :=
  match raw with
  | none => Except.error InodeErr.eio
  | some r =>
    let populated : Inode :=
      { inode with
        i_mode := r.i_mode
        i_uid := r.i_uid
        i_gid := r.i_gid
        i_nlink := r.i_nlinks
        i_size := r.i_size
        i_mtime := { tv_sec := r.i_time, tv_nsec := 0 }
        i_atime := { tv_sec := r.i_time, tv_nsec := 0 }
        i_ctime := { tv_sec := r.i_time, tv_nsec := 0 }
        i_blocks := 0 }
    Except.ok
      { u := ZoneData.v1 r.i_zone
        vfs_inode := minix_set_inode populated (old_decode_dev (r.i_zone 0)) }

/-- `V2_minix_iget` (inode.c lines 548-578): populate a freshly allocated
in-memory inode from the V2/V3 raw record; `none` means the raw read
failed (-EIO). -/
def V2_minix_iget (inode : Inode) (raw : Option Minix2InodeRaw) :
    Except InodeErr MinixInodeInfo :=
  match raw with
  | none => Except.error InodeErr.eio
  | some r =>
    let populated : Inode :=
      { inode with
        i_mode := r.i_mode
        i_uid := r.i_uid
        i_gid := r.i_gid
        i_nlink := r.i_nlinks
        i_size := r.i_size
        i_mtime := { tv_sec := r.i_mtime, tv_nsec := 0 }
        i_atime := { tv_sec := r.i_atime, tv_nsec := 0 }
        i_ctime := { tv_sec := r.i_ctime, tv_nsec := 0 }
        i_blocks := 0 }
    Except.ok
      { u := ZoneData.v2 r.i_zone
        vfs_inode := minix_set_inode populated (old_decode_dev (r.i_zone 0)) }

/-- `V1_minix_update_inode` (inode.c lines 604-633): write the in-memory
inode into the raw V1 record and mark the buffer dirty.  `raw0` is what
`minix_V1_raw_inode` found on disk (`none` = the read failed, the NULL
return).  On success the result is the record now in the buffer together
with the dirty flag (always true: `mark_buffer_dirty` at line 631).
Stores into the narrow on-disk fields truncate to the field width. -/
def V1_minix_update_inode (info : MinixInodeInfo) (raw0 : Option MinixInodeRaw) :
    Option (MinixInodeRaw × Bool) :=
  match raw0 with
  | none => none
  | some r0 =>
    let inode := info.vfs_inode
    some
      ({ i_mode := inode.i_mode % 2 ^ 16
         i_uid := fs_high2lowuid inode.i_uid
         i_gid := fs_high2lowgid inode.i_gid
         i_nlinks := inode.i_nlink % 2 ^ 8
         i_size := inode.i_size % 2 ^ 32
         i_time := inode.i_mtime.tv_sec % 2 ^ 32
         i_zone :=
           if S_ISCHR inode.i_mode || S_ISBLK inode.i_mode then
             fun i => if i = 0 then old_encode_dev inode.i_rdev % 2 ^ 16 else r0.i_zone i
           else
             fun i => info.u.i1_data i % 2 ^ 16 }, true)

/-- `V2_minix_update_inode` (inode.c lines 638-662): the V2/V3 write-back
of the raw record, mirror of the V1 version with 10 zone words and three
timestamps. -/
def V2_minix_update_inode (info : MinixInodeInfo) (raw0 : Option Minix2InodeRaw) :
    Option (Minix2InodeRaw × Bool) :=
  match raw0 with
  | none => none
  | some r0 =>
    let inode := info.vfs_inode
    some
      ({ i_mode := inode.i_mode % 2 ^ 16
         i_nlinks := inode.i_nlink % 2 ^ 16
         i_uid := fs_high2lowuid inode.i_uid
         i_gid := fs_high2lowgid inode.i_gid
         i_size := inode.i_size % 2 ^ 32
         i_atime := inode.i_atime.tv_sec % 2 ^ 32
         i_mtime := inode.i_mtime.tv_sec % 2 ^ 32
         i_ctime := inode.i_ctime.tv_sec % 2 ^ 32
         i_zone :=
           if S_ISCHR inode.i_mode || S_ISBLK inode.i_mode then
             fun i => if i = 0 then old_encode_dev inode.i_rdev % 2 ^ 32 else r0.i_zone i
           else
             fun i => info.u.i2_data i % 2 ^ 32 }, true)

/-- Either raw record, for the buffer produced by `minix_write_inode`. -/
inductive RawInodeRecord
  | v1 (r : MinixInodeRaw)
  | v2 (r : Minix2InodeRaw)

/-- The state of the buffer flags after `sync_dirty_buffer` finished, as
the device reports it: `buffer_req` and `buffer_uptodate`. -/
structure SyncOutcome where
  req : Bool
  uptodate : Bool
  deriving Repr, DecidableEq

/-- What a `minix_write_inode` call produced: the C return value (0 or
-EIO = -5), the buffer as the update left it (the raw record plus its
dirty flag; `none` when the raw read failed and nothing was written), and
the error message printed on a verified sync failure. -/
structure WriteInodeResult where
  err : Int
  buffer : Option (RawInodeRecord × Bool)
  log : Option String

/-- 8-digit zero-padded lowercase hex, the `%08lx` conversion. -/
def hexPad8 (n : Nat) : String :=
  let ds := Nat.toDigits 16 n
  String.mk (List.replicate (8 - ds.length) (Char.ofNat 48) ++ ds)

/-- The printk text of inode.c line 682: the volume identity `s_id` and
the inode number. -/
def syncFailMessage (sid : String) (ino : Nat) : String :=
  "IO error syncing minix inode [" ++ sid ++ ":" ++ hexPad8 ino ++ "]"

/-- Lines 677-688 of `minix_write_inode`: given the buffer `bh` the update
step produced (`none` = the update returned NULL, -EIO without a write),
optionally force-write and verify it.  `syncAll` is
`wbc->sync_mode == WB_SYNC_ALL`; `post` is the buffer flag state after
`sync_dirty_buffer` (`buffer_req`, `buffer_uptodate`). -/
def writeVerify (bh : Option (RawInodeRecord × Bool)) (syncAll : Bool)
    (post : SyncOutcome) (sid : String) (ino : Nat) : WriteInodeResult :=
  match bh with
  | none => { err := -5, buffer := none, log := none }
  | some (record, dirty) =>
    if syncAll && dirty then
      if post.req && !post.uptodate then
        { err := -5, buffer := some (record, dirty)
          log := some (syncFailMessage sid ino) }
      else
        { err := 0, buffer := some (record, dirty), log := none }
    else
      { err := 0, buffer := some (record, dirty), log := none }

/-- `minix_write_inode` (inode.c lines 667-689).  `version` is
`INODE_VERSION(inode)` (the volume's version: the V1 path runs only for
MINIX_V1, otherwise the V2 path).  `raw0v1` / `raw0v2` are what the raw
inode lookup finds on disk for the respective path. -/
def minix_write_inode (version : Version) (info : MinixInodeInfo)
    (raw0v1 : Option MinixInodeRaw) (raw0v2 : Option Minix2InodeRaw)
    (syncAll : Bool) (post : SyncOutcome) (sid : String) :
    WriteInodeResult :=
  let bh : Option (RawInodeRecord × Bool) :=
    match version with
    | Version.V1 =>
      (V1_minix_update_inode info raw0v1).map (fun pr => (RawInodeRecord.v1 pr.1, pr.2))
    | _ =>
      (V2_minix_update_inode info raw0v2).map (fun pr => (RawInodeRecord.v2 pr.1, pr.2))
  writeVerify bh syncAll post sid info.vfs_inode.i_ino

/-! ### Remount -/

/-- The state touched by `minix_remount`: the on-disk `s_state` field of
the pinned superblock buffer, the in-memory `sbi->s_mount_state`, and the
buffer's dirty flag. -/
structure RemountState where
  ms_state : Nat
  s_mount_state : Nat
  sbDirty : Bool
  deriving Repr, DecidableEq

/-- `minix_remount` (inode.c lines 134-169).  `curRdonly` is
`sb_rdonly(sb)`, `flagsRdonly` is `*flags & SB_RDONLY`.  The
`sync_filesystem(sb)` call at line 139 flushes dirty data and does not
touch this state.  The C function always returns 0; the model returns the
new state. -/
def minix_remount (version : Version) (curRdonly flagsRdonly : Bool)
    (st : RemountState) : RemountState :=
  if flagsRdonly = curRdonly then st
  else if flagsRdonly then
    if st.ms_state &&& MINIX_VALID_FS ≠ 0 ∨ st.s_mount_state &&& MINIX_VALID_FS = 0 then st
    else
      let st1 := if version ≠ Version.V3 then { st with ms_state := st.s_mount_state } else st
      { st1 with sbDirty := true }
  else
    let st1 :=
      if version ≠ Version.V3 then
        { st with s_mount_state := st.ms_state, ms_state := clearValidBit st.ms_state }
      else
        { st with s_mount_state := MINIX_VALID_FS }
    { st1 with sbDirty := true }

/-! ### Eviction -/

/-- The observable effects of the eviction path, in the order they are
performed. -/
inductive EvictAction
  | truncatePagesFinal  -- truncate_inode_pages_final(&inode->i_data)
  | setSizeZero         -- inode->i_size = 0
  | truncateZones       -- minix_truncate(inode)
  | invalidateBuffers   -- invalidate_inode_buffers(inode)
  | clearInode          -- clear_inode(inode)
  | freeInode           -- minix_free_inode(inode): clear the imap bit
  | writeBack           -- host write-back of a dirty inode
  deriving Repr, DecidableEq

/-- `minix_evict_inode` (inode.c lines 30-41) as the ordered sequence of
effects it performs, dispatching on `inode->i_nlink`.  Every listed
effect happens before the in-memory entry itself is destroyed: the host
drops the entry (`destroy_inode`) only after this hook returns. -/
def minix_evict_inode (nlink : Nat) : List EvictAction :=
  [EvictAction.truncatePagesFinal] ++
  (if nlink = 0 then [EvictAction.setSizeZero, EvictAction.truncateZones] else []) ++
  [EvictAction.invalidateBuffers, EvictAction.clearInode] ++
  (if nlink = 0 then [EvictAction.freeInode] else [])

/-- Modelled from the spec: the host eviction path around
`minix_evict_inode`.  Spec §3 lifecycle: on evict with link-count > 0
"write back if dirty and drop"; the write-back of a still-linked dirty
inode is done by the caller of the evict hook, which is not under src/. -/
def evictLifecycle (nlink : Nat) (dirty : Bool) : List EvictAction :=
  (if nlink ≠ 0 ∧ dirty = true then [EvictAction.writeBack] else []) ++
  minix_evict_inode nlink

/-! ### Statfs -/

/-- Kernel helper `huge_encode_dev` (external to the repository):
`new_encode_dev` widened to 64 bits, i.e.
`(minor & 0xff) | (major << 8) | ((minor & ~0xff) << 12)` with
`MAJOR(dev) = dev >> 20`, `MINOR(dev) = dev & 0xFFFFF`. -/
def huge_encode_dev (dev : Nat) : Nat :=
  let major := dev >>> 20
  let minor := dev &&& 0xFFFFF
  (minor &&& 0xFF) ||| (major <<< 8) ||| ((minor &&& 0xFFF00) <<< 12)

/-- The `struct kstatfs` fields `minix_statfs` fills. -/
structure Kstatfs where
  f_type : Nat
  f_bsize : Nat
  f_blocks : Nat
  f_bfree : Nat
  f_bavail : Nat
  f_files : Nat
  f_ffree : Nat
  f_namelen : Nat
  f_fsid0 : Nat
  f_fsid1 : Nat
  deriving Repr, DecidableEq

/-- `minix_statfs` (inode.c lines 392-409).  `freeBlocks` and
`freeInodes` are the results of `minix_count_free_blocks(sb)` and
`minix_count_free_inodes(sb)` (bitmap.c, not under src/); `bd_dev` is the
device number `sb->s_bdev->bd_dev`.  `f_blocks` is computed in the C type
u64 from the `unsigned long` difference, hence the wrap-around. -/
def minix_statfs (v : Volume) (freeBlocks freeInodes : Nat) (bd_dev : Nat) : Kstatfs :=
  let id := huge_encode_dev bd_dev
  { f_type := v.s_magic
    f_bsize := v.s_blocksize
    f_blocks := ((v.sbi.s_nzones + 2 ^ 64 - v.sbi.s_firstdatazone) % 2 ^ 64)
                  * 2 ^ v.sbi.s_log_zone_size % 2 ^ 64
    f_bfree := freeBlocks
    f_bavail := freeBlocks
    f_files := v.sbi.s_ninodes
    f_ffree := freeInodes
    f_namelen := v.sbi.s_namelen
    f_fsid0 := id % 2 ^ 32
    f_fsid1 := id / 2 ^ 32 % 2 ^ 32 }

/-! ### Module init / exit -/

/-- The calls the module init/exit paths make, in order. -/
inductive InitAction
  | initCache     -- init_inodecache()
  | registerFs    -- register_filesystem(&minix_fs_type)
  | destroyCache  -- destroy_inodecache()
  | unregisterFs  -- unregister_filesystem(&minix_fs_type)
  deriving Repr, DecidableEq

/-- `init_minix_fs` (inode.c lines 756-768): the C return value and the
trace of calls made.  `cacheErr` is what `init_inodecache()` returns (0
or -ENOMEM), `regErr` what `register_filesystem` returns.  The
`goto out;` at line 762 is unconditional — it does not test `err` — so the
`return 0;` at line 763 is dead code and `destroy_inodecache()` runs on
every path that registered. -/
def init_minix_fs (cacheErr regErr : Int) : Int × List InitAction :=
  if cacheErr ≠ 0 then (cacheErr, [InitAction.initCache])
  else (regErr, [InitAction.initCache, InitAction.registerFs, InitAction.destroyCache])

/-- `exit_minix_fs` (inode.c lines 770-774). -/
def exit_minix_fs : List InitAction :=
  [InitAction.unregisterFs, InitAction.destroyCache]

/-! ### Concrete devices and volumes

Concrete instances used to evaluate the model: the spec §8 scenarios 1
and 3, a V3 device whose block-size re-key fails, and a device refusing
every block size. -/

/-- An all-zero bitmap block. -/
def emptyBitmap : BitmapBlock := fun _ => false

/-- A `minix3_super_block` overlay that matches nothing. -/
def m3sZero : Minix3SuperBlockRaw :=
  { s_ninodes := 0, s_imap_blocks := 0, s_zmap_blocks := 0, s_firstdatazone := 0
    s_log_zone_size := 0, s_max_size := 0, s_zones := 0, s_magic := 0, s_blocksize := 0 }

/-- Spec §8 scenario 1: a clean V1 superblock — magic 0x137F, 16 inodes,
64 zones, one inode-bitmap block, one zone-bitmap block, first data
zone 3. -/
def msV1 : MinixSuperBlockRaw :=
  { s_ninodes := 16, s_nzones := 64, s_imap_blocks := 1, s_zmap_blocks := 1
    s_firstdatazone := 3, s_log_zone_size := 0, s_max_size := 268966912
    s_magic := 0x137F, s_state := 1, s_zones := 0 }

def sb1V1 : SuperBlock1 := { ms := msV1, m3s := m3sZero }

/-- A healthy device carrying the scenario-1 V1 volume. -/
def devV1 : Device :=
  { setOk := fun _ => true, super := some sb1V1
    bread := fun _ _ => some emptyBitmap, rootOk := true }

/-- The geometry `minix_parse_magic` derives from `sb1V1`. -/
def pV1 : ParsedSuper :=
  { sbi := { s_ninodes := 16, s_nzones := 64, s_imap_blocks := 1, s_zmap_blocks := 1
             s_firstdatazone := 3, s_log_zone_size := 0, s_max_size := 268966912
             s_mount_state := 1, s_version := Version.V1, s_dirsize := 16, s_namelen := 14 }
    s_magic := 0x137F, s_max_links := 250, s_blocksize := 1024 }

/-- The volume `minix_fill_super devV1 false` builds. -/
def volV1 : Volume :=
  { sbi := pV1.sbi
    s_magic := 0x137F, s_max_links := 250, s_blocksize := 1024
    imap := [setBit 0 emptyBitmap], zmap := [setBit 0 emptyBitmap]
    msState := 0, sbDirty := true }

/-- A V3 superblock declaring a 2048-byte block size. -/
def m3sV3 : Minix3SuperBlockRaw :=
  { s_ninodes := 16, s_imap_blocks := 1, s_zmap_blocks := 1, s_firstdatazone := 3
    s_log_zone_size := 0, s_max_size := 0x7FFFFFFF, s_zones := 64
    s_magic := 0x4D5A, s_blocksize := 2048 }

/-- The `minix_super_block` overlay of the V3 block: none of the four
V1/V2 magics. -/
def msOverlayV3 : MinixSuperBlockRaw :=
  { s_ninodes := 0, s_nzones := 0, s_imap_blocks := 0, s_zmap_blocks := 0
    s_firstdatazone := 0, s_log_zone_size := 0, s_max_size := 0
    s_magic := 0, s_state := 0, s_zones := 0 }

def sb1V3 : SuperBlock1 := { ms := msOverlayV3, m3s := m3sV3 }

/-- A device holding the V3 superblock `m3sV3` (declared block size 2048)
but accepting only the 1024-byte block size, so the re-key at line 258
fails. -/
def devV3reject : Device :=
  { setOk := fun n => n == 1024, super := some sb1V3
    bread := fun _ _ => some emptyBitmap, rootOk := true }

/-- The geometry parsed from `sb1V3` on `devV3reject`: version V3 with the
block size left at 1024 because the ignored re-key failed. -/
def pV3reject : ParsedSuper :=
  { sbi := { s_ninodes := 16, s_nzones := 64, s_imap_blocks := 1, s_zmap_blocks := 1
             s_firstdatazone := 3, s_log_zone_size := 0, s_max_size := 0x7FFFFFFF
             s_mount_state := 1, s_version := Version.V3, s_dirsize := 64, s_namelen := 60 }
    s_magic := 0x4D5A, s_max_links := 65530, s_blocksize := 1024 }

/-- A device refusing every block size. -/
def devNoBs : Device :=
  { setOk := fun _ => false, super := none, bread := fun _ _ => none, rootOk := false }

/-- Spec §8 scenario 3: a V2 superblock declaring 65536 inodes but only
one inode-bitmap block (needs eight at 1024-byte blocks). -/
def msV2deficit : MinixSuperBlockRaw :=
  { s_ninodes := 65536, s_nzones := 0, s_imap_blocks := 1, s_zmap_blocks := 1
    s_firstdatazone := 3, s_log_zone_size := 0, s_max_size := 0x7FFFFFFF
    s_magic := 0x2468, s_state := 1, s_zones := 64 }

def sb1V2deficit : SuperBlock1 := { ms := msV2deficit, m3s := m3sZero }

def devV2deficit : Device :=
  { setOk := fun _ => true, super := some sb1V2deficit
    bread := fun _ _ => some emptyBitmap, rootOk := true }

/-- The geometry parsed from `sb1V2deficit`. -/
def pV2deficit : ParsedSuper :=
  { sbi := { s_ninodes := 65536, s_nzones := 64, s_imap_blocks := 1, s_zmap_blocks := 1
             s_firstdatazone := 3, s_log_zone_size := 0, s_max_size := 0x7FFFFFFF
             s_mount_state := 1, s_version := Version.V2, s_dirsize := 16, s_namelen := 14 }
    s_magic := 0x2468, s_max_links := 65530, s_blocksize := 1024 }

/-- Whether a mount attempt produced a volume. -/
def mountSucceeded (r : Except FillError Volume) : Bool :=
  match r with
  | Except.ok _ => true
  | Except.error _ => false

/-- A concrete in-memory inode for evaluating the write-back path. -/
def inodeW : Inode :=
  { i_ino := 5, i_mode := 0o100644, i_uid := 1000, i_gid := 1000, i_nlink := 1
    i_size := 5000, i_mtime := { tv_sec := 100, tv_nsec := 0 }
    i_atime := { tv_sec := 101, tv_nsec := 0 }, i_ctime := { tv_sec := 102, tv_nsec := 0 }
    i_blocks := 0, i_rdev := 0, ops := some InodeOps.file }

def infoW : MinixInodeInfo := { u := ZoneData.v1 (fun _ => 7), vfs_inode := inodeW }

/-- A concrete V1 raw record. -/
def rawW1 : MinixInodeRaw :=
  { i_mode := 0o100644, i_uid := 0, i_size := 0, i_time := 0, i_gid := 0, i_nlinks := 1
    i_zone := fun _ => 0 }

/-- A concrete V2 raw record. -/
def rawW2 : Minix2InodeRaw :=
  { i_mode := 0, i_nlinks := 0, i_uid := 0, i_gid := 0, i_size := 0
    i_atime := 0, i_mtime := 0, i_ctime := 0, i_zone := fun _ => 0 }

/-! ## Theorems -/

/-- The bitmap-reading loop returns exactly as many blocks as asked. -/
theorem readMapBlocks_length (dev : Device) (bs : Nat) :
    ∀ count block l, readMapBlocks dev bs block count = some l → l.length = count := by
  intro count
  induction count with
  | zero =>
    intro block l h
    simp only [readMapBlocks] at h
    cases h
    rfl
  | succ n ih =>
    intro block l h
    simp only [readMapBlocks] at h
    cases hb : dev.bread bs block with
    | none => rw [hb] at h; cases h
    | some b =>
      rw [hb] at h
      cases hr : readMapBlocks dev bs (block + 1) n with
      | none => rw [hr] at h; cases h
      | some rest =>
        rw [hr] at h
        cases h
        simp [ih (block + 1) rest hr]

/-- No exit of the post-parse phase is the BadBlockSize error. -/
theorem fill_tail_ne_badHblock (dev : Device) (rdonly : Bool) (b : SuperBlock1)
    (p : ParsedSuper) :
    minix_fill_super_tail dev rdonly b p ≠ Except.error FillError.badHblock := by
  unfold minix_fill_super_tail
  split
  · simp
  · cases readMapBlocks dev p.s_blocksize 2 p.sbi.s_imap_blocks with
    | none => simp
    | some l1 =>
      cases readMapBlocks dev p.s_blocksize (2 + p.sbi.s_imap_blocks) p.sbi.s_zmap_blocks with
      | none => simp
      | some l2 =>
        simp only
        split
        · simp
        · split
          · simp
          · split <;> simp

/-- Claim C10: in the module-init path, control transfers unconditionally
to the error-unwind label after `register_filesystem`, regardless of the
registration result; on successful registration the inode cache is
destroyed and the function returns 0 while the registration is left in
place (no unregister call appears in the trace); there is no clean path
that registers and returns success skipping the unwind. -/
theorem claim_C10_init_unconditional_goto (regErr : Int) :
    init_minix_fs 0 regErr =
      (regErr, [InitAction.initCache, InitAction.registerFs, InitAction.destroyCache]) ∧
    (init_minix_fs 0 0).1 = 0 ∧
    InitAction.destroyCache ∈ (init_minix_fs 0 0).2 ∧
    InitAction.registerFs ∈ (init_minix_fs 0 0).2 ∧
    InitAction.unregisterFs ∉ (init_minix_fs 0 0).2 ∧
    (∀ cacheErr : Int, InitAction.registerFs ∈ (init_minix_fs cacheErr regErr).2 →
      InitAction.destroyCache ∈ (init_minix_fs cacheErr regErr).2) := by
  refine ⟨by simp [init_minix_fs], by simp [init_minix_fs], by simp [init_minix_fs],
    by simp [init_minix_fs], by simp [init_minix_fs], ?_⟩
  intro cacheErr h
  by_cases hc : cacheErr = 0 <;> simp_all [init_minix_fs]

/-- Witness for C10 at the concrete results 0/0. -/
theorem claim_C10_witness :
    init_minix_fs 0 0 =
      (0, [InitAction.initCache, InitAction.registerFs, InitAction.destroyCache]) ∧
    InitAction.destroyCache ∈ (init_minix_fs 0 0).2 :=
  ⟨(claim_C10_init_unconditional_goto 0).1,
   (claim_C10_init_unconditional_goto 0).2.2.2.2.2 0 (by decide)⟩

/-- Claim C7: at eviction with link count zero, the size is zeroed, then
truncation releases the zones, then the inode's bitmap bit is cleared,
all before the entry is dropped (the host destroys the entry only after
the hook returns); with positive link count neither truncation nor the
bitmap free runs, and the inode is written back only if dirty; cached
buffers are invalidated in both cases. -/
theorem claim_C7_eviction (nlink : Nat) (dirty : Bool) :
    (nlink = 0 → evictLifecycle nlink dirty =
      [EvictAction.truncatePagesFinal, EvictAction.setSizeZero, EvictAction.truncateZones,
       EvictAction.invalidateBuffers, EvictAction.clearInode, EvictAction.freeInode]) ∧
    (nlink ≠ 0 →
      EvictAction.truncateZones ∉ evictLifecycle nlink dirty ∧
      EvictAction.freeInode ∉ evictLifecycle nlink dirty ∧
      EvictAction.setSizeZero ∉ evictLifecycle nlink dirty ∧
      (dirty = true → evictLifecycle nlink dirty =
        [EvictAction.writeBack, EvictAction.truncatePagesFinal,
         EvictAction.invalidateBuffers, EvictAction.clearInode]) ∧
      (dirty = false → evictLifecycle nlink dirty =
        [EvictAction.truncatePagesFinal, EvictAction.invalidateBuffers,
         EvictAction.clearInode])) ∧
    EvictAction.invalidateBuffers ∈ evictLifecycle nlink dirty := by
  by_cases h : nlink = 0 <;> by_cases hd : dirty = true <;>
    simp_all [evictLifecycle, minix_evict_inode]

/-- Witness for C7 at link count zero. -/
theorem claim_C7_witness :
    evictLifecycle 0 false =
      [EvictAction.truncatePagesFinal, EvictAction.setSizeZero, EvictAction.truncateZones,
       EvictAction.invalidateBuffers, EvictAction.clearInode, EvictAction.freeInode] :=
  (claim_C7_eviction 0 false).1 rfl

/-- Claim C6: a same-mode remount leaves the state unchanged (after the
filesystem sync); on rw→ro, if the on-disk state already has VALID or the
in-memory mount-state lacks VALID nothing is written, and otherwise for
V1/V2 the in-memory mount-state is written to the on-disk state field and
the buffer dirtied; on ro→rw, for V1/V2 the on-disk state is copied to
memory and the VALID bit cleared on disk with the buffer dirtied, and for
V3 the in-memory state is forced to VALID. -/
theorem claim_C6_remount (version : Version) (st : RemountState) (ro : Bool) :
    minix_remount version ro ro st = st ∧
    (st.ms_state &&& MINIX_VALID_FS ≠ 0 ∨ st.s_mount_state &&& MINIX_VALID_FS = 0 →
      minix_remount version false true st = st) ∧
    (version ≠ Version.V3 → st.ms_state &&& MINIX_VALID_FS = 0 →
      st.s_mount_state &&& MINIX_VALID_FS ≠ 0 →
      minix_remount version false true st =
        { st with ms_state := st.s_mount_state, sbDirty := true }) ∧
    (version ≠ Version.V3 →
      minix_remount version true false st =
        { st with s_mount_state := st.ms_state, ms_state := clearValidBit st.ms_state,
                  sbDirty := true }) ∧
    minix_remount Version.V3 true false st =
      { st with s_mount_state := MINIX_VALID_FS, sbDirty := true } := by
  refine ⟨by simp [minix_remount], ?_, ?_, ?_, by simp [minix_remount]⟩
  · intro hcond
    simp [minix_remount, if_pos hcond]
  · intro hv h0 h1
    simp [minix_remount, h0, h1, hv]
  · intro hv
    simp [minix_remount, hv]

/-- Witness for C6: ro→rw on a V1 volume whose on-disk state is VALID. -/
theorem claim_C6_witness :
    minix_remount Version.V1 true false
        { ms_state := 1, s_mount_state := 1, sbDirty := false } =
      { ms_state := 0, s_mount_state := 1, sbDirty := true } :=
  (claim_C6_remount Version.V1 { ms_state := 1, s_mount_state := 1, sbDirty := false }
    true).2.2.2.1 (by decide)

/-- `minix_set_inode` only installs the operation set (and, for special
files, the device number): every other inode field is untouched. -/
theorem minix_set_inode_fields (inode : Inode) (rdev : Nat) :
    (minix_set_inode inode rdev).i_mode = inode.i_mode ∧
    (minix_set_inode inode rdev).i_uid = inode.i_uid ∧
    (minix_set_inode inode rdev).i_gid = inode.i_gid ∧
    (minix_set_inode inode rdev).i_nlink = inode.i_nlink ∧
    (minix_set_inode inode rdev).i_size = inode.i_size ∧
    (minix_set_inode inode rdev).i_mtime = inode.i_mtime ∧
    (minix_set_inode inode rdev).i_atime = inode.i_atime ∧
    (minix_set_inode inode rdev).i_ctime = inode.i_ctime := by
  unfold minix_set_inode
  split_ifs <;> exact ⟨rfl, rfl, rfl, rfl, rfl, rfl, rfl, rfl⟩

/-- Claim C4: inode population dispatches on version — V1 copies the 9
zone words, mode, uid, gid, size and link count, and stamps mtime, atime
and ctime all from the single on-disk time field with zero nanoseconds;
V2/V3 copies the 10 zone words and the three distinct on-disk timestamps
with zero nanoseconds; an unreadable raw record fails with -EIO. -/
theorem claim_C4_inode_population (ino : Inode) (r1 : MinixInodeRaw) (r2 : Minix2InodeRaw) :
    V1_minix_iget ino none = Except.error InodeErr.eio ∧
    V2_minix_iget ino none = Except.error InodeErr.eio ∧
    (V1_minix_iget ino (some r1)).map (fun i => i.u.i1_data) = Except.ok r1.i_zone ∧
    (V1_minix_iget ino (some r1)).map (fun i => i.vfs_inode.i_mode) = Except.ok r1.i_mode ∧
    (V1_minix_iget ino (some r1)).map (fun i => i.vfs_inode.i_uid) = Except.ok r1.i_uid ∧
    (V1_minix_iget ino (some r1)).map (fun i => i.vfs_inode.i_gid) = Except.ok r1.i_gid ∧
    (V1_minix_iget ino (some r1)).map (fun i => i.vfs_inode.i_size) = Except.ok r1.i_size ∧
    (V1_minix_iget ino (some r1)).map (fun i => i.vfs_inode.i_nlink) = Except.ok r1.i_nlinks ∧
    (V1_minix_iget ino (some r1)).map (fun i => i.vfs_inode.i_mtime) =
      Except.ok { tv_sec := r1.i_time, tv_nsec := 0 } ∧
    (V1_minix_iget ino (some r1)).map (fun i => i.vfs_inode.i_atime) =
      Except.ok { tv_sec := r1.i_time, tv_nsec := 0 } ∧
    (V1_minix_iget ino (some r1)).map (fun i => i.vfs_inode.i_ctime) =
      Except.ok { tv_sec := r1.i_time, tv_nsec := 0 } ∧
    (V2_minix_iget ino (some r2)).map (fun i => i.u.i2_data) = Except.ok r2.i_zone ∧
    (V2_minix_iget ino (some r2)).map (fun i => i.vfs_inode.i_mode) = Except.ok r2.i_mode ∧
    (V2_minix_iget ino (some r2)).map (fun i => i.vfs_inode.i_uid) = Except.ok r2.i_uid ∧
    (V2_minix_iget ino (some r2)).map (fun i => i.vfs_inode.i_gid) = Except.ok r2.i_gid ∧
    (V2_minix_iget ino (some r2)).map (fun i => i.vfs_inode.i_size) = Except.ok r2.i_size ∧
    (V2_minix_iget ino (some r2)).map (fun i => i.vfs_inode.i_nlink) = Except.ok r2.i_nlinks ∧
    (V2_minix_iget ino (some r2)).map (fun i => i.vfs_inode.i_mtime) =
      Except.ok { tv_sec := r2.i_mtime, tv_nsec := 0 } ∧
    (V2_minix_iget ino (some r2)).map (fun i => i.vfs_inode.i_atime) =
      Except.ok { tv_sec := r2.i_atime, tv_nsec := 0 } ∧
    (V2_minix_iget ino (some r2)).map (fun i => i.vfs_inode.i_ctime) =
      Except.ok { tv_sec := r2.i_ctime, tv_nsec := 0 } := by
  refine ⟨rfl, rfl, rfl, ?_, ?_, ?_, ?_, ?_, ?_, ?_, ?_, rfl, ?_, ?_, ?_, ?_, ?_, ?_, ?_, ?_⟩ <;>
    simp [V1_minix_iget, V2_minix_iget, Except.map, minix_set_inode_fields]

/-- The verification step keeps the buffer the update produced. -/
theorem writeVerify_buffer (record : RawInodeRecord) (d syncAll : Bool)
    (post : SyncOutcome) (sid : String) (ino : Nat) :
    (writeVerify (some (record, d)) syncAll post sid ino).buffer = some (record, d) := by
  simp only [writeVerify]
  split_ifs <;> rfl

/-- A completed but not-uptodate forced write is the verified failure. -/
theorem writeVerify_sync_fail (record : RawInodeRecord) (post : SyncOutcome)
    (sid : String) (ino : Nat) (hr : post.req = true) (hu : post.uptodate = false) :
    writeVerify (some (record, true)) true post sid ino =
      { err := -5, buffer := some (record, true), log := some (syncFailMessage sid ino) } := by
  simp [writeVerify, hr, hu]

/-- Without the sync flag no verification happens and the result is 0. -/
theorem writeVerify_no_sync (record : RawInodeRecord) (d : Bool) (post : SyncOutcome)
    (sid : String) (ino : Nat) :
    writeVerify (some (record, d)) false post sid ino =
      { err := 0, buffer := some (record, d), log := none } := by
  simp [writeVerify]

/-- An uptodate buffer never yields the verified failure. -/
theorem writeVerify_uptodate (record : RawInodeRecord) (d syncAll : Bool)
    (post : SyncOutcome) (sid : String) (ino : Nat) (hu : post.uptodate = true) :
    (writeVerify (some (record, d)) syncAll post sid ino).err = 0 := by
  simp only [writeVerify, hu, Bool.not_true, Bool.and_false]
  split_ifs <;> simp_all

/-- Claim C5: write-back always produces a dirtied buffer holding the raw
record; with the sync flag set and the buffer dirty it forces the write
and verifies, and a completed (`buffer_req`) but not-uptodate buffer
yields -EIO together with the textual volume and inode identity; an
unreadable raw record yields -EIO with nothing written. -/
theorem claim_C5_write_back (version : Version) (info : MinixInodeInfo)
    (r0v1 : MinixInodeRaw) (r0v2 : Minix2InodeRaw) (syncAll : Bool)
    (post : SyncOutcome) (sid : String) :
    minix_write_inode version info none none syncAll post sid =
      { err := -5, buffer := none, log := none } ∧
    (∃ record, (minix_write_inode version info (some r0v1) (some r0v2)
        syncAll post sid).buffer = some (record, true)) ∧
    (∀ rec1 d1, V1_minix_update_inode info (some r0v1) = some (rec1, d1) →
      (minix_write_inode Version.V1 info (some r0v1) (some r0v2)
          syncAll post sid).buffer = some (RawInodeRecord.v1 rec1, d1)) ∧
    (∀ rec2 d2, version ≠ Version.V1 →
      V2_minix_update_inode info (some r0v2) = some (rec2, d2) →
      (minix_write_inode version info (some r0v1) (some r0v2)
          syncAll post sid).buffer = some (RawInodeRecord.v2 rec2, d2)) ∧
    (syncAll = true → post.req = true → post.uptodate = false →
      (minix_write_inode version info (some r0v1) (some r0v2)
          syncAll post sid).err = -5 ∧
      (minix_write_inode version info (some r0v1) (some r0v2)
          syncAll post sid).log = some (syncFailMessage sid info.vfs_inode.i_ino)) ∧
    (syncAll = false →
      (minix_write_inode version info (some r0v1) (some r0v2)
          syncAll post sid).err = 0) ∧
    (post.uptodate = true →
      (minix_write_inode version info (some r0v1) (some r0v2)
          syncAll post sid).err = 0) := by
  refine ⟨?_, ?_, ?_, ?_, ?_, ?_, ?_⟩
  · cases version <;> rfl
  · cases version <;> exact ⟨_, writeVerify_buffer _ _ _ _ _ _⟩
  · intro rec1 d1 h
    simp only [minix_write_inode, h, Option.map]
    exact writeVerify_buffer _ _ _ _ _ _
  · intro rec2 d2 hv h
    cases version with
    | V1 => exact absurd rfl hv
    | V2 =>
      simp only [minix_write_inode, h, Option.map]
      exact writeVerify_buffer _ _ _ _ _ _
    | V3 =>
      simp only [minix_write_inode, h, Option.map]
      exact writeVerify_buffer _ _ _ _ _ _
  · intro hs hr hu
    subst hs
    cases version <;>
      simp [minix_write_inode, V1_minix_update_inode, V2_minix_update_inode, Option.map,
        writeVerify_sync_fail _ post sid _ hr hu]
  · intro hs
    subst hs
    cases version <;>
      simp [minix_write_inode, V1_minix_update_inode, V2_minix_update_inode, Option.map,
        writeVerify_no_sync]
  · intro hu
    cases version <;>
      simp [minix_write_inode, V1_minix_update_inode, V2_minix_update_inode, Option.map,
        writeVerify_uptodate _ _ _ post sid _ hu]

/-- Witness for C5: the verified sync failure on a concrete V1 inode. -/
theorem claim_C5_witness :
    (minix_write_inode Version.V1 infoW (some rawW1) (some rawW2) true
        { req := true, uptodate := false } "minix").err = -5 ∧
    (minix_write_inode Version.V1 infoW (some rawW1) (some rawW2) true
        { req := true, uptodate := false } "minix").log =
      some (syncFailMessage "minix" infoW.vfs_inode.i_ino) :=
  (claim_C5_write_back Version.V1 infoW rawW1 rawW2 true
    { req := true, uptodate := false } "minix").2.2.2.2.1 rfl rfl rfl

/-- Claim C1: the parser accepts exactly five variants, matched in source
order on the 16-bit magic field or the V3 probe of the 16-bit word at
byte offset 24 (the `minix3_super_block` magic): 0x137F gives V1 with dir
stride 16 and name length 14; 0x138F gives V1 with 32/30; 0x2468 gives V2
with 16/14; 0x2478 gives V2 with 32/30; 0x4D5A at offset 24 gives V3 with
64/60; the zone count comes from the 32-bit `s_zones` field for V2/V3 and
from the 16-bit `s_nzones` field for V1; any other magic fails the mount
with NoFilesystem. -/
theorem claim_C1_magic_dispatch (dev : Device) (rdonly : Bool) (b : SuperBlock1)
    (hset : dev.setOk BLOCK_SIZE = true) (hsb : dev.super = some b) :
    (b.ms.s_magic = MINIX_SUPER_MAGIC →
      ∃ p, minix_parse_magic dev b = some p ∧ p.sbi.s_version = Version.V1 ∧
        p.sbi.s_dirsize = 16 ∧ p.sbi.s_namelen = 14 ∧ p.sbi.s_nzones = b.ms.s_nzones) ∧
    (b.ms.s_magic = MINIX_SUPER_MAGIC2 →
      ∃ p, minix_parse_magic dev b = some p ∧ p.sbi.s_version = Version.V1 ∧
        p.sbi.s_dirsize = 32 ∧ p.sbi.s_namelen = 30 ∧ p.sbi.s_nzones = b.ms.s_nzones) ∧
    (b.ms.s_magic = MINIX2_SUPER_MAGIC →
      ∃ p, minix_parse_magic dev b = some p ∧ p.sbi.s_version = Version.V2 ∧
        p.sbi.s_dirsize = 16 ∧ p.sbi.s_namelen = 14 ∧ p.sbi.s_nzones = b.ms.s_zones) ∧
    (b.ms.s_magic = MINIX2_SUPER_MAGIC2 →
      ∃ p, minix_parse_magic dev b = some p ∧ p.sbi.s_version = Version.V2 ∧
        p.sbi.s_dirsize = 32 ∧ p.sbi.s_namelen = 30 ∧ p.sbi.s_nzones = b.ms.s_zones) ∧
    (b.ms.s_magic ≠ MINIX_SUPER_MAGIC → b.ms.s_magic ≠ MINIX_SUPER_MAGIC2 →
      b.ms.s_magic ≠ MINIX2_SUPER_MAGIC → b.ms.s_magic ≠ MINIX2_SUPER_MAGIC2 →
      b.m3s.s_magic = MINIX3_SUPER_MAGIC →
      ∃ p, minix_parse_magic dev b = some p ∧ p.sbi.s_version = Version.V3 ∧
        p.sbi.s_dirsize = 64 ∧ p.sbi.s_namelen = 60 ∧ p.sbi.s_nzones = b.m3s.s_zones) ∧
    (b.ms.s_magic ≠ MINIX_SUPER_MAGIC → b.ms.s_magic ≠ MINIX_SUPER_MAGIC2 →
      b.ms.s_magic ≠ MINIX2_SUPER_MAGIC → b.ms.s_magic ≠ MINIX2_SUPER_MAGIC2 →
      b.m3s.s_magic ≠ MINIX3_SUPER_MAGIC →
      minix_fill_super dev rdonly = Except.error FillError.noFs) := by
  refine ⟨?_, ?_, ?_, ?_, ?_, ?_⟩
  · intro h
    exact ⟨{ sbi := { sbiFromMs b.ms with s_version := Version.V1, s_dirsize := 16,
                                          s_namelen := 14 }
             s_magic := b.ms.s_magic, s_max_links := MINIX_LINK_MAX
             s_blocksize := BLOCK_SIZE },
           by simp [minix_parse_magic, h], rfl, rfl, rfl, rfl⟩
  · intro h
    exact ⟨{ sbi := { sbiFromMs b.ms with s_version := Version.V1, s_dirsize := 32,
                                          s_namelen := 30 }
             s_magic := b.ms.s_magic, s_max_links := MINIX_LINK_MAX
             s_blocksize := BLOCK_SIZE },
           by simp [minix_parse_magic, h, MINIX_SUPER_MAGIC, MINIX_SUPER_MAGIC2],
           rfl, rfl, rfl, rfl⟩
  · intro h
    exact ⟨{ sbi := { sbiFromMs b.ms with s_version := Version.V2, s_nzones := b.ms.s_zones,
                                          s_dirsize := 16, s_namelen := 14 }
             s_magic := b.ms.s_magic, s_max_links := MINIX2_LINK_MAX
             s_blocksize := BLOCK_SIZE },
           by simp [minix_parse_magic, h, MINIX_SUPER_MAGIC, MINIX_SUPER_MAGIC2,
                MINIX2_SUPER_MAGIC],
           rfl, rfl, rfl, rfl⟩
  · intro h
    exact ⟨{ sbi := { sbiFromMs b.ms with s_version := Version.V2, s_nzones := b.ms.s_zones,
                                          s_dirsize := 32, s_namelen := 30 }
             s_magic := b.ms.s_magic, s_max_links := MINIX2_LINK_MAX
             s_blocksize := BLOCK_SIZE },
           by simp [minix_parse_magic, h, MINIX_SUPER_MAGIC, MINIX_SUPER_MAGIC2,
                MINIX2_SUPER_MAGIC, MINIX2_SUPER_MAGIC2],
           rfl, rfl, rfl, rfl⟩
  · intro h1 h2 h3 h4 h5
    exact ⟨{ sbi := { s_ninodes := b.m3s.s_ninodes
                      s_nzones := b.m3s.s_zones
                      s_imap_blocks := b.m3s.s_imap_blocks
                      s_zmap_blocks := b.m3s.s_zmap_blocks
                      s_firstdatazone := b.m3s.s_firstdatazone
                      s_log_zone_size := b.m3s.s_log_zone_size
                      s_max_size := b.m3s.s_max_size
                      s_mount_state := MINIX_VALID_FS
                      s_version := Version.V3
                      s_dirsize := 64
                      s_namelen := 60 }
             s_magic := b.m3s.s_magic
             s_max_links := MINIX2_LINK_MAX
             s_blocksize := if dev.setOk b.m3s.s_blocksize then b.m3s.s_blocksize
                            else BLOCK_SIZE },
           by simp [minix_parse_magic, h1, h2, h3, h4, h5], rfl, rfl, rfl, rfl⟩
  · intro h1 h2 h3 h4 h5
    simp [minix_fill_super, hset, hsb, minix_parse_magic, h1, h2, h3, h4, h5]

/-- Witness for C1: the V1 variant on the scenario-1 device. -/
theorem claim_C1_witness :
    ∃ p, minix_parse_magic devV1 sb1V1 = some p ∧ p.sbi.s_version = Version.V1 ∧
      p.sbi.s_dirsize = 16 ∧ p.sbi.s_namelen = 14 ∧ p.sbi.s_nzones = sb1V1.ms.s_nzones :=
  (claim_C1_magic_dispatch devV1 false sb1V1 rfl rfl).1 rfl

/-- A mount result that is no error is a volume. -/
theorem exists_ok_of_ne_error {e : Except FillError Volume}
    (h : ∀ err, e ≠ Except.error err) : ∃ v, e = Except.ok v := by
  cases e with
  | ok v => exact ⟨v, rfl⟩
  | error err => exact absurd rfl (h err)

/-- Claim C2: a zero bitmap-block count fails the mount with
IllegalSuperblock; otherwise a bitmap-block count below the required
ceil(bits / bits_per_block) — bits_per_block derived from the volume
block size — fails it with BadBitmap, while counts at or above the
requirement are accepted. -/
theorem claim_C2_bitmap_validation (dev : Device) (rdonly : Bool) (b : SuperBlock1)
    (p : ParsedSuper) (hset : dev.setOk BLOCK_SIZE = true) (hsb : dev.super = some b)
    (hp : minix_parse_magic dev b = some p) :
    (p.sbi.s_imap_blocks = 0 ∨ p.sbi.s_zmap_blocks = 0 →
      minix_fill_super dev rdonly = Except.error FillError.illegalSb) ∧
    (p.sbi.s_imap_blocks ≠ 0 → p.sbi.s_zmap_blocks ≠ 0 →
      p.sbi.s_imap_blocks < minix_blocks_needed p.sbi.s_ninodes p.s_blocksize →
      minix_fill_super dev rdonly = Except.error FillError.noBitmap) ∧
    (p.sbi.s_imap_blocks ≠ 0 → p.sbi.s_zmap_blocks ≠ 0 →
      p.sbi.s_zmap_blocks <
        minix_blocks_needed (zmapBits p.sbi.s_nzones p.sbi.s_firstdatazone) p.s_blocksize →
      minix_fill_super dev rdonly = Except.error FillError.noBitmap) ∧
    (∀ l1 l2, p.sbi.s_imap_blocks ≠ 0 → p.sbi.s_zmap_blocks ≠ 0 →
      readMapBlocks dev p.s_blocksize 2 p.sbi.s_imap_blocks = some l1 →
      readMapBlocks dev p.s_blocksize (2 + p.sbi.s_imap_blocks) p.sbi.s_zmap_blocks = some l2 →
      minix_blocks_needed p.sbi.s_ninodes p.s_blocksize ≤ p.sbi.s_imap_blocks →
      minix_blocks_needed (zmapBits p.sbi.s_nzones p.sbi.s_firstdatazone) p.s_blocksize ≤
        p.sbi.s_zmap_blocks →
      dev.rootOk = true →
      ∃ v, minix_fill_super dev rdonly = Except.ok v) := by
  have hfill : minix_fill_super dev rdonly = minix_fill_super_tail dev rdonly b p := by
    simp [minix_fill_super, hset, hsb, hp]
  refine ⟨?_, ?_, ?_, ?_⟩
  · intro hz
    rw [hfill]
    unfold minix_fill_super_tail
    rw [if_pos hz]
  · intro h1 h2 hlt
    rw [hfill]
    cases hr1 : readMapBlocks dev p.s_blocksize 2 p.sbi.s_imap_blocks with
    | none => simp [minix_fill_super_tail, h1, h2, hr1]
    | some l1 =>
      cases hr2 : readMapBlocks dev p.s_blocksize (2 + p.sbi.s_imap_blocks)
          p.sbi.s_zmap_blocks with
      | none => simp [minix_fill_super_tail, h1, h2, hr1, hr2]
      | some l2 => simp [minix_fill_super_tail, h1, h2, hr1, hr2, hlt]
  · intro h1 h2 hlt
    rw [hfill]
    cases hr1 : readMapBlocks dev p.s_blocksize 2 p.sbi.s_imap_blocks with
    | none => simp [minix_fill_super_tail, h1, h2, hr1]
    | some l1 =>
      cases hr2 : readMapBlocks dev p.s_blocksize (2 + p.sbi.s_imap_blocks)
          p.sbi.s_zmap_blocks with
      | none => simp [minix_fill_super_tail, h1, h2, hr1, hr2]
      | some l2 =>
        by_cases hc1 : p.sbi.s_imap_blocks < minix_blocks_needed p.sbi.s_ninodes p.s_blocksize
        · simp [minix_fill_super_tail, h1, h2, hr1, hr2, hc1]
        · simp [minix_fill_super_tail, h1, h2, hr1, hr2, hc1, hlt]
  · intro l1 l2 h1 h2 hr1 hr2 hge1 hge2 hroot
    rw [hfill]
    refine exists_ok_of_ne_error ?_
    intro err
    simp [minix_fill_super_tail, h1, h2, hr1, hr2, Nat.not_lt.mpr hge1,
      Nat.not_lt.mpr hge2, hroot]

/-- Witness for C2: spec §8 scenario 3, a V2 volume declaring 65536
inodes with a single inode-bitmap block, refused with BadBitmap. -/
theorem claim_C2_witness :
    minix_fill_super devV2deficit false = Except.error FillError.noBitmap :=
  (claim_C2_bitmap_validation devV2deficit false sb1V2deficit pV2deficit rfl rfl
    (by decide)).2.1 (by decide) (by decide) (by decide)

/-- Claim C3 (amended): the mount fails with BadBlockSize exactly when
the initial `sb_set_blocksize(s, BLOCK_SIZE)` fails; the V3 re-key at
line 258 ignores the result of its `sb_set_blocksize` call, and when that
call fails the mount proceeds with the 1024-byte block size. -/
theorem claim_C3_blocksize (dev : Device) (rdonly : Bool) :
    (dev.setOk BLOCK_SIZE = false →
      minix_fill_super dev rdonly = Except.error FillError.badHblock) ∧
    (dev.setOk BLOCK_SIZE = true →
      minix_fill_super dev rdonly ≠ Except.error FillError.badHblock) ∧
    (∀ b p, dev.super = some b → minix_parse_magic dev b = some p →
      p.sbi.s_version = Version.V3 → dev.setOk b.m3s.s_blocksize = false →
      p.s_blocksize = BLOCK_SIZE) := by
  refine ⟨?_, ?_, ?_⟩
  · intro h
    unfold minix_fill_super
    rw [if_neg (by simp [h])]
  · intro h
    cases hsb : dev.super with
    | none => simp [minix_fill_super, h, hsb]
    | some b =>
      cases hp : minix_parse_magic dev b with
      | none => simp [minix_fill_super, h, hsb, hp]
      | some p =>
        have hfill : minix_fill_super dev rdonly = minix_fill_super_tail dev rdonly b p := by
          simp [minix_fill_super, h, hsb, hp]
        rw [hfill]
        exact fill_tail_ne_badHblock dev rdonly b p
  · intro b p hsb hp hv hbs
    simp only [minix_parse_magic] at hp
    by_cases h1 : b.ms.s_magic = MINIX_SUPER_MAGIC
    · rw [if_pos h1] at hp
      injection hp with hp2
      subst hp2
      exact Version.noConfusion hv
    · rw [if_neg h1] at hp
      by_cases h2 : b.ms.s_magic = MINIX_SUPER_MAGIC2
      · rw [if_pos h2] at hp
        injection hp with hp2
        subst hp2
        exact Version.noConfusion hv
      · rw [if_neg h2] at hp
        by_cases h3 : b.ms.s_magic = MINIX2_SUPER_MAGIC
        · rw [if_pos h3] at hp
          injection hp with hp2
          subst hp2
          exact Version.noConfusion hv
        · rw [if_neg h3] at hp
          by_cases h4 : b.ms.s_magic = MINIX2_SUPER_MAGIC2
          · rw [if_pos h4] at hp
            injection hp with hp2
            subst hp2
            exact Version.noConfusion hv
          · rw [if_neg h4] at hp
            by_cases h5 : b.m3s.s_magic = MINIX3_SUPER_MAGIC
            · rw [if_pos h5] at hp
              rw [if_neg (by simp [hbs])] at hp
              injection hp with hp2
              subst hp2
              rfl
            · rw [if_neg h5] at hp
              cases hp

/-- Claim C3 counterexample: on `devV3reject` the V3 re-key call
`sb_set_blocksize(s, 2048)` fails (its result is ignored at line 258),
yet the mount succeeds instead of failing with BadBlockSize. -/
theorem claim_C3_counterexample :
    devV3reject.setOk 2048 = false ∧
    sb1V3.m3s.s_blocksize = 2048 ∧
    minix_parse_magic devV3reject sb1V3 = some pV3reject ∧
    pV3reject.sbi.s_version = Version.V3 ∧
    mountSucceeded (minix_fill_super devV3reject false) = true := by
  refine ⟨rfl, rfl, by decide, rfl, by decide⟩

/-- Witness for C3 (amended) on a device refusing every block size. -/
theorem claim_C3_witness :
    minix_fill_super devNoBs false = Except.error FillError.badHblock :=
  (claim_C3_blocksize devNoBs false).1 rfl

/-- Claim C8: every successfully mounted volume has bit 0 of the first
inode-bitmap block and bit 0 of the first zone-bitmap block set in
memory, whatever the on-disk bit values. -/
theorem claim_C8_bit0_reserved (dev : Device) (rdonly : Bool) (v : Volume)
    (h : minix_fill_super dev rdonly = Except.ok v) :
    bit0OfHead v.imap = true ∧ bit0OfHead v.zmap = true := by
  unfold minix_fill_super at h
  by_cases hs : dev.setOk BLOCK_SIZE = true
  · rw [if_pos hs] at h
    cases hsb : dev.super with
    | none => simp only [hsb] at h; cases h
    | some b =>
      simp only [hsb] at h
      cases hp : minix_parse_magic dev b with
      | none => simp only [hp] at h; cases h
      | some p =>
        simp only [hp] at h
        unfold minix_fill_super_tail at h
        by_cases hz : p.sbi.s_imap_blocks = 0 ∨ p.sbi.s_zmap_blocks = 0
        · rw [if_pos hz] at h; cases h
        · rw [if_neg hz] at h
          cases hr1 : readMapBlocks dev p.s_blocksize 2 p.sbi.s_imap_blocks with
          | none => simp only [hr1] at h; cases h
          | some l1 =>
            simp only [hr1] at h
            cases hr2 : readMapBlocks dev p.s_blocksize (2 + p.sbi.s_imap_blocks)
                p.sbi.s_zmap_blocks with
            | none => simp only [hr2] at h; cases h
            | some l2 =>
              simp only [hr2] at h
              by_cases hc1 : p.sbi.s_imap_blocks <
                  minix_blocks_needed p.sbi.s_ninodes p.s_blocksize
              · rw [if_pos hc1] at h; cases h
              · rw [if_neg hc1] at h
                by_cases hc2 : p.sbi.s_zmap_blocks <
                    minix_blocks_needed (zmapBits p.sbi.s_nzones p.sbi.s_firstdatazone)
                      p.s_blocksize
                · rw [if_pos hc2] at h; cases h
                · rw [if_neg hc2] at h
                  by_cases hro : dev.rootOk = true
                  · rw [if_pos hro] at h
                    injection h with hv
                    subst hv
                    have hl1 := readMapBlocks_length dev p.s_blocksize
                      p.sbi.s_imap_blocks 2 l1 hr1
                    have hl2 := readMapBlocks_length dev p.s_blocksize
                      p.sbi.s_zmap_blocks (2 + p.sbi.s_imap_blocks) l2 hr2
                    constructor
                    · cases l1 with
                      | nil => exact absurd (Or.inl (by simpa using hl1.symm)) hz
                      | cons b1 t1 => simp [setBit0Head, bit0OfHead, setBit]
                    · cases l2 with
                      | nil => exact absurd (Or.inr (by simpa using hl2.symm)) hz
                      | cons b1 t1 => simp [setBit0Head, bit0OfHead, setBit]
                  · rw [if_neg hro] at h; cases h
  · rw [if_neg hs] at h; cases h

/-- Witness for C8 on the mounted scenario-1 volume. -/
theorem claim_C8_witness :
    bit0OfHead volV1.imap = true ∧ bit0OfHead volV1.zmap = true :=
  claim_C8_bit0_reserved devV1 false volV1 rfl

/-- Claim C9: statfs reports the filesystem magic, the volume block size,
total data blocks `(nzones − first_data_zone) << log_zone_size`, free
blocks = the bitmap-counted free zones with available = free, total
inodes = `s_ninodes`, free inodes = the bitmap-counted free inodes, the
version's maximum name length, and a filesystem id derived from the
device number. -/
theorem claim_C9_statfs (v : Volume) (fb fi bd : Nat)
    (h1 : v.sbi.s_firstdatazone ≤ v.sbi.s_nzones)
    (h2 : v.sbi.s_nzones < 2 ^ 64)
    (h3 : (v.sbi.s_nzones - v.sbi.s_firstdatazone) * 2 ^ v.sbi.s_log_zone_size < 2 ^ 64) :
    (minix_statfs v fb fi bd).f_type = v.s_magic ∧
    (minix_statfs v fb fi bd).f_bsize = v.s_blocksize ∧
    (minix_statfs v fb fi bd).f_blocks
      = (v.sbi.s_nzones - v.sbi.s_firstdatazone) * 2 ^ v.sbi.s_log_zone_size ∧
    (minix_statfs v fb fi bd).f_bfree = fb ∧
    (minix_statfs v fb fi bd).f_bavail = (minix_statfs v fb fi bd).f_bfree ∧
    (minix_statfs v fb fi bd).f_files = v.sbi.s_ninodes ∧
    (minix_statfs v fb fi bd).f_ffree = fi ∧
    (minix_statfs v fb fi bd).f_namelen = v.sbi.s_namelen ∧
    (minix_statfs v fb fi bd).f_fsid0 = huge_encode_dev bd % 2 ^ 32 ∧
    (minix_statfs v fb fi bd).f_fsid1 = huge_encode_dev bd / 2 ^ 32 % 2 ^ 32 := by
  refine ⟨rfl, rfl, ?_, rfl, rfl, rfl, rfl, rfl, rfl, rfl⟩
  show ((v.sbi.s_nzones + 2 ^ 64 - v.sbi.s_firstdatazone) % 2 ^ 64)
      * 2 ^ v.sbi.s_log_zone_size % 2 ^ 64 = _
  have e1 : v.sbi.s_nzones + 2 ^ 64 - v.sbi.s_firstdatazone
      = (v.sbi.s_nzones - v.sbi.s_firstdatazone) + 2 ^ 64 := by omega
  have e2 : (v.sbi.s_nzones - v.sbi.s_firstdatazone) % 2 ^ 64
      = v.sbi.s_nzones - v.sbi.s_firstdatazone := Nat.mod_eq_of_lt (by omega)
  rw [e1, Nat.add_mod_right, e2, Nat.mod_eq_of_lt h3]

/-- Witness for C9: spec §8 scenario 1 — 61 data blocks, 16 inodes, name
length 14. -/
theorem claim_C9_witness :
    (minix_statfs volV1 10 5 0).f_blocks = 61 ∧
    (minix_statfs volV1 10 5 0).f_files = 16 ∧
    (minix_statfs volV1 10 5 0).f_namelen = 14 := by
  have h := claim_C9_statfs volV1 10 5 0 (by decide) (by decide) (by decide)
  refine ⟨?_, ?_, ?_⟩
  · rw [h.2.2.1]; decide
  · rw [h.2.2.2.2.2.1]; decide
  · rw [h.2.2.2.2.2.2.2.1]; decide

end Minix
